import Mathlib

/-!
Shallow embedding of the `/analyze` endpoint of `src/app.py` (the FastAPI
handler `analyze_resume`).  External collaborators (Cloudinary, the
generative-AI SDK, Python's `json.loads`, `os.remove`) are modelled as an
oracle environment supplied per request; the handler itself is a pure
function from the oracle and the request to a result together with an
effects trace (temp-file lifecycle, which collaborator calls happened,
which prompt was sent).
-/

/-- Outcome of a Python call that may raise: either an exception carrying a
message, or a normal value. -/
inductive ExcOr (α : Type) where
  | exc (msg : String)
  | ok (a : α)
deriving Repr, DecidableEq

/-- JSON values, as produced by a successful `json.loads`. -/
inductive Json where
  | null
  | bool (b : Bool)
  | num (n : Int)
  | str (s : String)
  | arr (elems : List Json)
  | obj (fields : List (String × Json))
deriving Repr

/-- The multipart `file` part of the request (`UploadFile` in FastAPI).
`content_type` and `filename` are client-supplied; `contents` is the byte
sequence returned by `await file.read()`. -/
structure UploadFile where
  content_type : String
  filename : Option String
  contents : List Nat
deriving Repr, DecidableEq

/-- Result dict of `cloudinary.uploader.upload`; the handler reads the keys
`secure_url` and `public_id` with `.get`, which yields `None` when absent. -/
structure CloudResult where
  secure_url : Option String
  public_id : Option String
deriving Repr, DecidableEq

/-- Handle returned by `genai.upload_file`. -/
structure GenaiFile where
  id : Nat
deriving Repr, DecidableEq

/-- Per-request oracle for everything outside the handler's own code: the
two external collaborators, the JSON parser and `os.remove`. -/
structure Env where
  /-- Outcome of `cloudinary.uploader.upload(temp_path, ...)`. -/
  cloudinaryUpload : ExcOr CloudResult
  /-- Outcome of `cloudinary_url(public_id, ...)`, first component of the
  returned pair, as a function of the `public_id` passed in. -/
  cloudinaryUrl : Option String → ExcOr String
  /-- Outcome of `genai.upload_file(path=temp_path, ...)`. -/
  genaiUpload : ExcOr GenaiFile
  /-- Outcome of `model.generate_content([uploaded, prompt], ...)` followed
  by reading `resp.text`, which may be `None`; a function of the uploaded
  handle and the prompt string. -/
  generate : GenaiFile → String → ExcOr (Option String)
  /-- Behaviour of `json.loads`: `some` value on success, `none` when the
  parse raises. -/
  jsonParse : String → Option Json
  /-- Whether `os.remove(temp_path)` succeeds rather than raising. -/
  removeSucceeds : Bool

/-- JSON body of a 200 response:
`\x7b"feedback": ..., "pdf_url": ..., "preview_url": ...\x7d`. -/
structure ResponseBody where
  feedback : Json
  pdf_url : Option String
  preview_url : Option String
deriving Repr

/-- How the handler terminates: an `HTTPException` with status and detail,
a normal 200 return, or an uncaught Python exception propagating out of the
handler (FastAPI then produces a server error). -/
inductive HandlerResult where
  | httpError (status : Nat) (detail : String)
  | success (body : ResponseBody)
  | pyError (msg : String)
deriving Repr

/-- Observable side effects of one request. -/
structure Effects where
  /-- A temporary file was created (`tempfile.NamedTemporaryFile`). -/
  tempCreated : Bool
  /-- The suffix the temporary file was created with. -/
  tempSuffix : String
  /-- `os.remove(temp_path)` was attempted, i.e. the `finally` block ran. -/
  removeAttempted : Bool
  /-- The temporary file still exists after the request completes. -/
  tempExistsAfter : Bool
  /-- The media-hosting collaborator was called. -/
  cloudCalled : Bool
  /-- The AI collaborator was called (`genai.upload_file`). -/
  genaiCalled : Bool
  /-- The prompt string passed to `generate_content`, when that call happened. -/
  promptSent : Option String
deriving Repr, DecidableEq

/-- Effects trace of a request rejected before the temp file is made. -/
def noEffects : Effects :=
  { tempCreated := false, tempSuffix := "", removeAttempted := false,
    tempExistsAfter := false, cloudCalled := false, genaiCalled := false,
    promptSent := none }

/-- Index of the last occurrence of `c` in `cs`, if any (Python `str.rfind`,
with `none` for `-1`). -/
def rfindIdx (cs : List Char) (c : Char) : Option Nat :=
  (List.range cs.length).foldl
    (fun acc i => if cs.get? i = some c then some i else acc) none

/-- Extension part of Python's `os.path.splitext` with `/` as separator:
the extension starts at the last dot, provided some character strictly
between the last separator and that dot is not itself a dot (leading dots
of the basename never begin an extension). -/
def splitextExt (p : String) : String :=
  let cs := p.data
  match rfindIdx cs '.' with
  | none => ""
  | some dotIndex =>
    let start : Nat :=
      match rfindIdx cs '/' with
      | none => 0
      | some s => s + 1
    if start ≤ dotIndex ∧
        (List.range' start (dotIndex - start)).any (fun j => cs.get? j != some '.') then
      String.mk (cs.drop dotIndex)
    else ""

/-- `MAX_FILE_SIZE = 10 * 1024 * 1024` from `src/app.py`. -/
def MAX_FILE_SIZE : Nat := 10 * 1024 * 1024

/-- The `allowed` content-type set of `analyze_resume`. -/
def allowed : List String :=
  ["application/pdf",
   "application/msword",
   "application/vnd.openxmlformats-officedocument.wordprocessingml.document"]

/-- One category block of the schema text embedded in the prompt
(`toneAndStyle`, `content`, `structure`, `skills` share this shape). -/
def categoryBlock (name : String) : String :=
  "  " ++ name ++ ": \x7b\n" ++
  "    score: number; //max 100\n" ++
  "    tips: \x7b\n" ++
  "      type: \"good\" | \"improve\";\n" ++
  "      tip: string; //make it a short \"title\" for the actual explanation\n" ++
  "      explanation: string; //explain in detail here\n" ++
  "    \x7d[]; //give 3-4 tips\n" ++
  "  \x7d;\n"

/-- The `interface_Feedback` schema text embedded verbatim at the top of the
prompt (after Python's `\x7b\x7b`/`\x7d\x7d` escapes are rendered). -/
def promptSchemaBlock : String :=
  "interface_Feedback \x7b\n" ++
  "  overallScore: number; //max 100\n" ++
  "  ATS: \x7b\n" ++
  "    score: number; //rate based on ATS suitability\n" ++
  "    tips: \x7b\n" ++
  "      type: \"good\" | \"improve\";\n" ++
  "      tip: string; //give 3-4 tips\n" ++
  "    \x7d[];\n" ++
  "  \x7d;\n" ++
  categoryBlock "toneAndStyle" ++
  categoryBlock "content" ++
  categoryBlock "structure" ++
  categoryBlock "skills" ++
  "\x7d"

/-- The prose between the schema block and the embedded `company` value. -/
def promptMiddle : String :=
  "\n\nYou are an expert in ATS (Applicant Tracking System) and resume analysis.\n" ++
  "Please analyze and rate this resume and suggest how to improve it.\n" ++
  "The rating can be low if the resume is bad.\n" ++
  "Be thorough and detailed. Don't be afraid to point out any mistakes or areas for improvement.\n" ++
  "If there is a lot to improve, don't hesitate to give low scores. This is to help the user to improve their resume.\n" ++
  "If available, use the job description for the job user is applying to to give more detailed feedback.\n" ++
  "If provided, take the job description into consideration.\n" ++
  "The company name is: "

/-- The text between the embedded `company` and `title` values. -/
def promptAfterCompany : String := "\nThe job title is: "

/-- The text between the embedded `title` and `description` values. -/
def promptAfterTitle : String := "\nThe job description is: "

/-- The sentence instructing the collaborator to return a bare JSON object. -/
def returnJsonInstruction : String :=
  "Return the analysis as a JSON object, without any other text and without the backticks."

/-- The closing part of the prompt, after the embedded `description` value. -/
def promptClosing : String :=
  "\nProvide the feedback using the following format: AIResponseFormat\n" ++
  (returnJsonInstruction ++ (" \n" ++ "Do not include any other text or comments."))

/-- The prompt f-string of `analyze_resume`, as a function of the three form
values it interpolates. -/
def buildPrompt (company title description : String) : String :=
  "\n" ++ (promptSchemaBlock ++ (promptMiddle ++ (company ++ (promptAfterCompany ++
    (title ++ (promptAfterTitle ++ (description ++ promptClosing)))))))

/-- The handler `analyze_resume` of `src/app.py`, as a pure function of the
oracle environment and the request, returning the result and the effects
trace.  Control flow mirrors the source: content-type check, size check,
temp-file creation, a caught Cloudinary section, the uncaught Gemini calls,
the JSON-parse-with-raw-fallback, and the `finally` cleanup. -/
def analyze_resume (env : Env) (file : UploadFile)
    (company title description : String) : HandlerResult × Effects :=
  if file.content_type ∉ allowed then
    (.httpError 415 "Only PDF/DOC/DOCX are supported", noEffects)
  else
    let contents := file.contents
    if contents.length > MAX_FILE_SIZE then
      (.httpError 413 "File too large", noEffects)
    else
      let ext := splitextExt (file.filename.getD "")
      let suffix := if ext = "" then ".bin" else ext
      let urls : Option String × Option String :=
        match env.cloudinaryUpload with
        | .exc _ => (none, none)
        | .ok cloud_result =>
          match env.cloudinaryUrl cloud_result.public_id with
          | .exc _ => (none, none)
          | .ok u => (cloud_result.secure_url, some u)
      let pdf_url := urls.1
      let preview_url := urls.2
      let eff (ps : Option String) : Effects :=
        { tempCreated := true, tempSuffix := suffix, removeAttempted := true,
          tempExistsAfter := !env.removeSucceeds, cloudCalled := true,
          genaiCalled := true, promptSent := ps }
      match env.genaiUpload with
      | .exc m => (.pyError m, eff none)
      | .ok uploaded =>
        let prompt := buildPrompt company title description
        match env.generate uploaded prompt with
        | .exc m => (.pyError m, eff (some prompt))
        | .ok otext =>
          let text := otext.getD ""
          let feedback :=
            match env.jsonParse text with
            | some j => j
            | none => Json.obj [("raw", Json.str text)]
          (.success { feedback := feedback, pdf_url := pdf_url, preview_url := preview_url },
           eff (some prompt))

/-- `s` contains `sub` as a (contiguous) substring. -/
def containsStr (s sub : String) : Prop := ∃ a b, s = a ++ (sub ++ b)

/-- A small well-formed PDF upload used to exercise the handler concretely. -/
def pdfFile : UploadFile :=
  { content_type := "application/pdf", filename := some "resume.pdf",
    contents := [37, 80, 68, 70] }

/-- A plain-text upload, outside the content-type allow-set. -/
def txtFile : UploadFile :=
  { content_type := "text/plain", filename := some "resume.txt",
    contents := [104, 105] }

/-- An upload one byte over the size cap, with a disallowed content type. -/
def oversizedBadFile : UploadFile :=
  { content_type := "text/plain", filename := some "resume.txt",
    contents := List.replicate (MAX_FILE_SIZE + 1) 0 }

/-- An upload one byte over the size cap, with an allowed content type. -/
def oversizedPdfFile : UploadFile :=
  { content_type := "application/pdf", filename := some "resume.pdf",
    contents := List.replicate (MAX_FILE_SIZE + 1) 0 }

/-- A PDF upload whose size is exactly the cap. -/
def exactSizePdfFile : UploadFile :=
  { content_type := "application/pdf", filename := some "resume.pdf",
    contents := List.replicate MAX_FILE_SIZE 0 }

/-- An oracle in which every collaborator call succeeds and the AI returns
the text of an empty JSON object. -/
def testEnv : Env :=
  { cloudinaryUpload := .ok { secure_url := some "https://res.example/resume.pdf",
                              public_id := some "resumes/abc" },
    cloudinaryUrl := fun _ => .ok "https://res.example/resume.png",
    genaiUpload := .ok { id := 0 },
    generate := fun _ _ => .ok (some "\x7b\x7d"),
    jsonParse := fun s => if s = "\x7b\x7d" then some (Json.obj []) else none,
    removeSucceeds := true }

/-- Claim C3: a request whose content type is outside the allow-set is
rejected with HTTP 415 and the detail message from the source, and neither
a temporary file nor any external collaborator call happens. -/
theorem analyze_resume_415_on_bad_type (env : Env) (file : UploadFile)
    (c t d : String) (h : file.content_type ∉ allowed) :
    analyze_resume env file c t d =
      (.httpError 415 "Only PDF/DOC/DOCX are supported", noEffects) ∧
    (analyze_resume env file c t d).2.tempCreated = false ∧
    (analyze_resume env file c t d).2.cloudCalled = false ∧
    (analyze_resume env file c t d).2.genaiCalled = false := by
  simp [analyze_resume, h, noEffects]

/-- Witness for C3 at a concrete plain-text upload. -/
theorem analyze_resume_415_on_bad_type_witness :
    txtFile.content_type ∉ allowed ∧
    analyze_resume testEnv txtFile "" "" "" =
      (.httpError 415 "Only PDF/DOC/DOCX are supported", noEffects) :=
  ⟨by decide, (analyze_resume_415_on_bad_type testEnv txtFile "" "" "" (by decide)).1⟩

/-- Counterexample to C4 as stated: an upload can exceed the size cap and
still not get a 413, because the content-type check runs first; a
plain-text upload one byte over the cap gets 415 instead. -/
theorem analyze_resume_oversize_not_always_413 :
    oversizedBadFile.contents.length > MAX_FILE_SIZE ∧
    (analyze_resume testEnv oversizedBadFile "" "" "").1 ≠
      .httpError 413 "File too large" ∧
    (analyze_resume testEnv oversizedBadFile "" "" "").1 =
      .httpError 415 "Only PDF/DOC/DOCX are supported" := by
  refine ⟨by simp [oversizedBadFile], ?_, ?_⟩ <;>
    simp [analyze_resume, oversizedBadFile, allowed, noEffects]

/-- Claim C4 (amended with an allowed content type): an upload with an
allowed content type whose byte length exceeds `MAX_FILE_SIZE` is rejected
with HTTP 413 and no collaborator call is attempted. -/
theorem analyze_resume_413_on_oversize (env : Env) (file : UploadFile)
    (c t d : String) (h1 : file.content_type ∈ allowed)
    (h2 : file.contents.length > MAX_FILE_SIZE) :
    analyze_resume env file c t d = (.httpError 413 "File too large", noEffects) ∧
    (analyze_resume env file c t d).2.cloudCalled = false ∧
    (analyze_resume env file c t d).2.genaiCalled = false := by
  simp [analyze_resume, h1, h2, noEffects]

/-- Witness for C4 (amended) at a concrete oversized PDF upload. -/
theorem analyze_resume_413_on_oversize_witness :
    oversizedPdfFile.content_type ∈ allowed ∧
    analyze_resume testEnv oversizedPdfFile "" "" "" =
      (.httpError 413 "File too large", noEffects) :=
  ⟨by decide,
   (analyze_resume_413_on_oversize testEnv oversizedPdfFile "" "" ""
     (by decide) (by simp [oversizedPdfFile])).1⟩

/-- After both validation checks pass, every exit path of the handler has
created the temp file, called Cloudinary, called the AI collaborator,
run the `finally` cleanup, and left no file behind exactly when
`os.remove` succeeded. -/
theorem analyze_resume_effects_after_validation (env : Env) (file : UploadFile)
    (c t d : String) (h1 : file.content_type ∈ allowed)
    (h2 : file.contents.length ≤ MAX_FILE_SIZE) :
    (analyze_resume env file c t d).2.tempCreated = true ∧
    (analyze_resume env file c t d).2.removeAttempted = true ∧
    (analyze_resume env file c t d).2.tempExistsAfter = !env.removeSucceeds ∧
    (analyze_resume env file c t d).2.cloudCalled = true ∧
    (analyze_resume env file c t d).2.genaiCalled = true := by
  have h2' : ¬ file.contents.length > MAX_FILE_SIZE := by omega
  simp only [analyze_resume, h1, h2', not_true_eq_false, not_false_eq_true,
    if_false, if_true, ite_false, ite_true]
  cases hu : env.genaiUpload with
  | exc m => simp [hu]
  | ok u =>
    cases hg : env.generate u (buildPrompt c t d) with
    | exc m => simp [hu, hg]
    | ok otext => simp [hu, hg]

/-- Claim C9: the size boundary is exclusive.  An upload with an allowed
content type whose length is exactly `MAX_FILE_SIZE` passes the size check
(no 413, and the temp file is created), and a 413 response can only arise
from a length strictly greater than `MAX_FILE_SIZE`. -/
theorem analyze_resume_size_boundary_exclusive (env : Env) (file : UploadFile)
    (c t d : String) :
    (file.content_type ∈ allowed → file.contents.length = MAX_FILE_SIZE →
      (analyze_resume env file c t d).1 ≠ HandlerResult.httpError 413 "File too large" ∧
      (analyze_resume env file c t d).2.tempCreated = true) ∧
    ((analyze_resume env file c t d).1 = HandlerResult.httpError 413 "File too large" →
      file.contents.length > MAX_FILE_SIZE) := by
  constructor
  · intro h1 hlen
    have h2 : file.contents.length ≤ MAX_FILE_SIZE := le_of_eq hlen
    have h2' : ¬ file.contents.length > MAX_FILE_SIZE := by omega
    refine ⟨?_, (analyze_resume_effects_after_validation env file c t d h1 h2).1⟩
    simp only [analyze_resume, h1, h2', not_true_eq_false, if_false, ite_false]
    cases hu : env.genaiUpload with
    | exc m => simp [hu]
    | ok u =>
      cases hg : env.generate u (buildPrompt c t d) with
      | exc m => simp [hu, hg]
      | ok otext => simp [hu, hg]
  · intro hres
    by_contra hlen
    have h2' : ¬ file.contents.length > MAX_FILE_SIZE := hlen
    by_cases h1 : file.content_type ∈ allowed
    · revert hres
      simp only [analyze_resume, h1, h2', not_true_eq_false, if_false, ite_false]
      cases hu : env.genaiUpload with
      | exc m => simp [hu]
      | ok u =>
        cases hg : env.generate u (buildPrompt c t d) with
        | exc m => simp [hu, hg]
        | ok otext => simp [hu, hg]
    · revert hres
      simp [analyze_resume, h1]

/-- Witness for C9 at a PDF upload of exactly the maximum size. -/
theorem analyze_resume_size_boundary_exclusive_witness :
    exactSizePdfFile.content_type ∈ allowed ∧
    exactSizePdfFile.contents.length = MAX_FILE_SIZE ∧
    (analyze_resume testEnv exactSizePdfFile "" "" "").1 ≠
      HandlerResult.httpError 413 "File too large" ∧
    (analyze_resume testEnv exactSizePdfFile "" "" "").2.tempCreated = true :=
  ⟨by decide, by simp [exactSizePdfFile],
   (analyze_resume_size_boundary_exclusive testEnv exactSizePdfFile "" "" "").1
     (by decide) (by simp [exactSizePdfFile])⟩

/-- The handler result (the first component) never depends on whether
`os.remove` succeeds: a deletion failure is swallowed by the bare
`except: pass` in the `finally` block. -/
theorem analyze_resume_result_ignores_remove (env : Env) (b : Bool)
    (file : UploadFile) (c t d : String) :
    (analyze_resume { env with removeSucceeds := b } file c t d).1 =
      (analyze_resume env file c t d).1 := by
  by_cases h1 : file.content_type ∈ allowed
  · by_cases h2 : file.contents.length > MAX_FILE_SIZE
    · simp [analyze_resume, h1, h2]
    · simp only [analyze_resume, h1, h2, not_true_eq_false, if_false, ite_false]
      cases hu : env.genaiUpload with
      | exc m => simp [hu]
      | ok u =>
        cases hg : env.generate u (buildPrompt c t d) with
        | exc m => simp [hu, hg]
        | ok otext => simp [hu, hg]
  · simp [analyze_resume, h1]

/-- Claim C5: once validation passes (a temp file exists), the `finally`
cleanup runs on every exit path, the file is gone whenever deletion
succeeds, and a deletion failure never changes the response. -/
theorem analyze_resume_temp_cleanup (env : Env) (file : UploadFile)
    (c t d : String) (h1 : file.content_type ∈ allowed)
    (h2 : file.contents.length ≤ MAX_FILE_SIZE) :
    (analyze_resume env file c t d).2.tempCreated = true ∧
    (analyze_resume env file c t d).2.removeAttempted = true ∧
    (env.removeSucceeds = true → (analyze_resume env file c t d).2.tempExistsAfter = false) ∧
    (∀ b : Bool, (analyze_resume { env with removeSucceeds := b } file c t d).1 =
      (analyze_resume env file c t d).1) := by
  obtain ⟨e1, e2, e3, _, _⟩ := analyze_resume_effects_after_validation env file c t d h1 h2
  exact ⟨e1, e2, fun hr => by simp [e3, hr],
    fun b => analyze_resume_result_ignores_remove env b file c t d⟩

/-- Witness for C5 at a concrete small PDF upload. -/
theorem analyze_resume_temp_cleanup_witness :
    pdfFile.content_type ∈ allowed ∧ pdfFile.contents.length ≤ MAX_FILE_SIZE ∧
    ((analyze_resume testEnv pdfFile "" "" "").2.tempCreated = true ∧
     (analyze_resume testEnv pdfFile "" "" "").2.removeAttempted = true ∧
     (testEnv.removeSucceeds = true →
       (analyze_resume testEnv pdfFile "" "" "").2.tempExistsAfter = false) ∧
     (∀ b : Bool, (analyze_resume { testEnv with removeSucceeds := b } pdfFile "" "" "").1 =
       (analyze_resume testEnv pdfFile "" "" "").1)) :=
  ⟨by decide, by decide,
   analyze_resume_temp_cleanup testEnv pdfFile "" "" "" (by decide) (by decide)⟩

/-- Oracle in which the Cloudinary upload raises. -/
def envCloudFail : Env := { testEnv with cloudinaryUpload := .exc "network down" }

/-- Oracle in which `genai.upload_file` raises. -/
def envGenaiFail : Env := { testEnv with genaiUpload := .exc "quota exceeded" }

/-- Oracle in which the AI responds with text that is not valid JSON. -/
def envNotJson : Env := { testEnv with generate := fun _ _ => .ok (some "oops not json") }

/-- Oracle in which `resp.text` is `None`. -/
def envNoText : Env := { testEnv with generate := fun _ _ => .ok none }

/-- Claim C6: a failure anywhere in the Cloudinary section (the upload or
the URL build) never aborts the request: the AI collaborator is still
called, and if the AI call succeeds the response is a 200 whose `pdf_url`
and `preview_url` are both null. -/
theorem analyze_resume_cloud_failure_nonfatal (env : Env) (file : UploadFile)
    (c t d : String) (h1 : file.content_type ∈ allowed)
    (h2 : file.contents.length ≤ MAX_FILE_SIZE)
    (hc : (∃ m, env.cloudinaryUpload = ExcOr.exc m) ∨
          (∃ r m, env.cloudinaryUpload = ExcOr.ok r ∧
            env.cloudinaryUrl r.public_id = ExcOr.exc m)) :
    (analyze_resume env file c t d).2.genaiCalled = true ∧
    (∀ u otext, env.genaiUpload = ExcOr.ok u →
      env.generate u (buildPrompt c t d) = ExcOr.ok otext →
      ∃ fb, (analyze_resume env file c t d).1 =
        HandlerResult.success { feedback := fb, pdf_url := none, preview_url := none }) := by
  have h2' : ¬ file.contents.length > MAX_FILE_SIZE := by omega
  refine ⟨(analyze_resume_effects_after_validation env file c t d h1 h2).2.2.2.2, ?_⟩
  intro u otext hu hg
  simp only [analyze_resume, h1, h2', not_true_eq_false, if_false, ite_false]
  rcases hc with ⟨m, hm⟩ | ⟨r, m, hr, hm⟩
  · simp [hu, hg, hm]
  · simp [hu, hg, hr, hm]

/-- Witness for C6: Cloudinary down, AI fine, at a concrete request. -/
theorem analyze_resume_cloud_failure_nonfatal_witness :
    ∃ fb, (analyze_resume envCloudFail pdfFile "" "" "").1 =
      HandlerResult.success { feedback := fb, pdf_url := none, preview_url := none } :=
  (analyze_resume_cloud_failure_nonfatal envCloudFail pdfFile "" "" ""
    (by decide) (by decide) (Or.inl ⟨"network down", rfl⟩)).2
    { id := 0 } (some "\x7b\x7d") rfl rfl

/-- Claim C7: if the required AI call (`genai.upload_file` or
`generate_content`) raises, the exception propagates out of the handler
unchanged while the `finally` cleanup still runs. -/
theorem analyze_resume_ai_failure_propagates (env : Env) (file : UploadFile)
    (c t d m : String) (h1 : file.content_type ∈ allowed)
    (h2 : file.contents.length ≤ MAX_FILE_SIZE)
    (hf : env.genaiUpload = ExcOr.exc m ∨
          ∃ u, env.genaiUpload = ExcOr.ok u ∧
            env.generate u (buildPrompt c t d) = ExcOr.exc m) :
    (analyze_resume env file c t d).1 = HandlerResult.pyError m ∧
    (analyze_resume env file c t d).2.removeAttempted = true := by
  have h2' : ¬ file.contents.length > MAX_FILE_SIZE := by omega
  refine ⟨?_, (analyze_resume_effects_after_validation env file c t d h1 h2).2.1⟩
  simp only [analyze_resume, h1, h2', not_true_eq_false, if_false, ite_false]
  rcases hf with hm | ⟨u, hu, hg⟩
  · simp [hm]
  · simp [hu, hg]

/-- Witness for C7: the Gemini upload raises at a concrete request. -/
theorem analyze_resume_ai_failure_propagates_witness :
    (analyze_resume envGenaiFail pdfFile "" "" "").1 =
      HandlerResult.pyError "quota exceeded" ∧
    (analyze_resume envGenaiFail pdfFile "" "" "").2.removeAttempted = true :=
  analyze_resume_ai_failure_propagates envGenaiFail pdfFile "" "" "" "quota exceeded"
    (by decide) (by decide) (Or.inl rfl)

/-- Claim C1: when the AI call succeeds and its text (after the `or ""`
coercion) parses as JSON, the handler returns 200 with `feedback` equal to
exactly the parsed value, alongside `pdf_url` and `preview_url` fields. -/
theorem analyze_resume_valid_json_passthrough (env : Env) (file : UploadFile)
    (c t d : String) (u : GenaiFile) (otext : Option String) (j : Json)
    (h1 : file.content_type ∈ allowed)
    (h2 : file.contents.length ≤ MAX_FILE_SIZE)
    (hu : env.genaiUpload = ExcOr.ok u)
    (hg : env.generate u (buildPrompt c t d) = ExcOr.ok otext)
    (hj : env.jsonParse (otext.getD "") = some j) :
    ∃ p q, (analyze_resume env file c t d).1 =
      HandlerResult.success { feedback := j, pdf_url := p, preview_url := q } := by
  have h2' : ¬ file.contents.length > MAX_FILE_SIZE := by omega
  simp only [analyze_resume, h1, h2', not_true_eq_false, if_false, ite_false]
  simp [hu, hg, hj]

/-- Witness for C1: the AI returns the empty JSON object on a small PDF. -/
theorem analyze_resume_valid_json_passthrough_witness :
    ∃ p q, (analyze_resume testEnv pdfFile "Acme" "Engineer" "").1 =
      HandlerResult.success { feedback := Json.obj [], pdf_url := p, preview_url := q } :=
  analyze_resume_valid_json_passthrough testEnv pdfFile "Acme" "Engineer" ""
    { id := 0 } (some "\x7b\x7d") (Json.obj []) (by decide) (by decide) rfl rfl rfl

/-- Claim C2: when the AI responds with text that fails JSON parsing, the
request still succeeds, with `feedback` equal to the object
`\x7b"raw": t\x7d` for the collaborator's exact text `t`. -/
theorem analyze_resume_raw_fallback (env : Env) (file : UploadFile)
    (c t d : String) (u : GenaiFile) (txt : String)
    (h1 : file.content_type ∈ allowed)
    (h2 : file.contents.length ≤ MAX_FILE_SIZE)
    (hu : env.genaiUpload = ExcOr.ok u)
    (hg : env.generate u (buildPrompt c t d) = ExcOr.ok (some txt))
    (hj : env.jsonParse txt = none) :
    ∃ p q, (analyze_resume env file c t d).1 =
      HandlerResult.success
        { feedback := Json.obj [("raw", Json.str txt)], pdf_url := p, preview_url := q } := by
  have h2' : ¬ file.contents.length > MAX_FILE_SIZE := by omega
  simp only [analyze_resume, h1, h2', not_true_eq_false, if_false, ite_false]
  simp [hu, hg, hj]

/-- Witness for C2: the AI returns prose that is not JSON. -/
theorem analyze_resume_raw_fallback_witness :
    ∃ p q, (analyze_resume envNotJson pdfFile "" "" "").1 =
      HandlerResult.success
        { feedback := Json.obj [("raw", Json.str "oops not json")],
          pdf_url := p, preview_url := q } :=
  analyze_resume_raw_fallback envNotJson pdfFile "" "" ""
    { id := 0 } "oops not json" (by decide) (by decide) rfl rfl rfl

/-- Claim C10: when `resp.text` is `None` (or the empty string), the `or ""`
coercion feeds the empty string to the JSON parse; provided the parser
rejects the empty string (as `json.loads` does), the response is a 200 with
`feedback = \x7b"raw": ""\x7d`. -/
theorem analyze_resume_empty_text_fallback (env : Env) (file : UploadFile)
    (c t d : String) (u : GenaiFile) (otext : Option String)
    (h1 : file.content_type ∈ allowed)
    (h2 : file.contents.length ≤ MAX_FILE_SIZE)
    (hu : env.genaiUpload = ExcOr.ok u)
    (hg : env.generate u (buildPrompt c t d) = ExcOr.ok otext)
    (hot : otext = none ∨ otext = some "")
    (hj : env.jsonParse "" = none) :
    ∃ p q, (analyze_resume env file c t d).1 =
      HandlerResult.success
        { feedback := Json.obj [("raw", Json.str "")], pdf_url := p, preview_url := q } := by
  have h2' : ¬ file.contents.length > MAX_FILE_SIZE := by omega
  simp only [analyze_resume, h1, h2', not_true_eq_false, if_false, ite_false]
  rcases hot with rfl | rfl <;> simp [hu, hg, hj]

/-- Witness for C10: `resp.text` is `None` at a concrete request. -/
theorem analyze_resume_empty_text_fallback_witness :
    ∃ p q, (analyze_resume envNoText pdfFile "" "" "").1 =
      HandlerResult.success
        { feedback := Json.obj [("raw", Json.str "")], pdf_url := p, preview_url := q } :=
  analyze_resume_empty_text_fallback envNoText pdfFile "" "" ""
    { id := 0 } none (by decide) (by decide) rfl rfl (Or.inl rfl) rfl

/-- Claim C8: once the request reaches the AI step, the prompt handed to
`generate_content` is exactly the f-string of the source, which contains the
company, title and description values verbatim, embeds the schema text, and
carries the pure-JSON no-backticks instruction. -/
theorem analyze_resume_prompt_contents (env : Env) (file : UploadFile)
    (c t d : String) (u : GenaiFile)
    (h1 : file.content_type ∈ allowed)
    (h2 : file.contents.length ≤ MAX_FILE_SIZE)
    (hu : env.genaiUpload = ExcOr.ok u) :
    (analyze_resume env file c t d).2.promptSent = some (buildPrompt c t d) ∧
    containsStr (buildPrompt c t d) c ∧
    containsStr (buildPrompt c t d) t ∧
    containsStr (buildPrompt c t d) d ∧
    containsStr (buildPrompt c t d) promptSchemaBlock ∧
    containsStr (buildPrompt c t d) returnJsonInstruction := by
  have h2' : ¬ file.contents.length > MAX_FILE_SIZE := by omega
  refine ⟨?_, ?_, ?_, ?_, ?_, ?_⟩
  · simp only [analyze_resume, h1, h2', not_true_eq_false, if_false, ite_false]
    cases hg : env.generate u (buildPrompt c t d) with
    | exc m => simp [hu, hg]
    | ok otext => simp [hu, hg]
  · exact ⟨"\n" ++ (promptSchemaBlock ++ promptMiddle),
      promptAfterCompany ++ (t ++ (promptAfterTitle ++ (d ++ promptClosing))),
      by simp [buildPrompt, String.append_assoc]⟩
  · exact ⟨"\n" ++ (promptSchemaBlock ++ (promptMiddle ++ (c ++ promptAfterCompany))),
      promptAfterTitle ++ (d ++ promptClosing),
      by simp [buildPrompt, String.append_assoc]⟩
  · exact ⟨"\n" ++ (promptSchemaBlock ++ (promptMiddle ++ (c ++ (promptAfterCompany ++
        (t ++ promptAfterTitle))))), promptClosing,
      by simp [buildPrompt, String.append_assoc]⟩
  · exact ⟨"\n", promptMiddle ++ (c ++ (promptAfterCompany ++ (t ++ (promptAfterTitle ++
        (d ++ promptClosing))))),
      by simp [buildPrompt, String.append_assoc]⟩
  · exact ⟨"\n" ++ (promptSchemaBlock ++ (promptMiddle ++ (c ++ (promptAfterCompany ++
        (t ++ (promptAfterTitle ++ (d ++
          "\nProvide the feedback using the following format: AIResponseFormat\n"))))))),
      " \n" ++ "Do not include any other text or comments.",
      by simp [buildPrompt, promptClosing, String.append_assoc]⟩

/-- Witness for C8 at a concrete request with nonempty form fields. -/
theorem analyze_resume_prompt_contents_witness :
    (analyze_resume testEnv pdfFile "Acme" "Engineer" "Build things").2.promptSent =
      some (buildPrompt "Acme" "Engineer" "Build things") ∧
    containsStr (buildPrompt "Acme" "Engineer" "Build things") "Acme" ∧
    containsStr (buildPrompt "Acme" "Engineer" "Build things") "Engineer" ∧
    containsStr (buildPrompt "Acme" "Engineer" "Build things") "Build things" ∧
    containsStr (buildPrompt "Acme" "Engineer" "Build things") promptSchemaBlock ∧
    containsStr (buildPrompt "Acme" "Engineer" "Build things") returnJsonInstruction :=
  analyze_resume_prompt_contents testEnv pdfFile "Acme" "Engineer" "Build things"
    { id := 0 } (by decide) (by decide) rfl
